import Mathlib

/-!
# giftlink-backend: the authentication routes

A shallow embedding of `routes/authRoutes.js`: the three request handlers
`POST /register`, `POST /login` and `PUT /update`, run against a model of the
`users` collection.

The collaborators the handlers call (`connectToDatabase`, the collection
methods, `bcryptjs`, `jsonwebtoken`, `express-validator`) are libraries outside
the repository. Their pure parts are parameters (`Ctx`), their per-request
results (the random salt, the clock, the generated ObjectId, and whether a call
throws) are the request's environment (`Env`).

The handlers come twice: `register`, `login` and `update` on bodies whose
fields are strings, and `registerJson` and `loginJson` on parsed bodies, whose
fields may be arrays; the former are the latter restricted to string fields.
-/

set_option autoImplicit false

namespace Giftlink

/-! ## Data model -/

/-- A document of the `users` collection. `_id` is the ObjectId the driver
assigns on insert; `updatedAt` is absent until the first update. -/
structure User where
  _id : Nat
  email : String
  firstName : String
  lastName : String
  password : String
  createdAt : Nat
  updatedAt : Option Nat
  deriving DecidableEq, Repr

/-- The `users` collection, in natural (insertion) order. -/
abbrev Store := List User

/-- The collaborator calls a handler can make; each of them may throw. -/
inductive Op where
  | connectToDatabase
  | findOne
  | genSalt
  | hash
  | insertOne
  | compare
  | findOneAndUpdate
  | sign
  deriving DecidableEq, Repr

/-- The token payload `{ user: { id } }`. `id` is `none` when the expression
the handler passes evaluates to `undefined` (the key is then dropped by the JSON
serialisation). An ObjectId and its `toString()` serialise to the same text, so
both are `some` of the identifier. -/
structure Payload where
  id : Option Nat
  deriving DecidableEq, Repr

/-- The pure collaborators and the configuration read at start-up.
`isEmail` is the validator's email syntax check, `hash` and `compare` are
`bcryptjs.hash` and `bcryptjs.compare`, `sign` is `jwt.sign`, and `JWT_SECRET`
is `process.env.JWT_SECRET` (absent when the variable is unset). -/
structure Ctx where
  isEmail : String → Bool
  hash : String → String → String
  compare : String → String → Bool
  sign : Payload → Option String → String
  JWT_SECRET : Option String

/-- What the outside world contributes to one request: which collaborator calls
throw, the salt `genSalt(10)` returns, the value of `new Date()`, and the
ObjectId the driver generates for `insertOne`. -/
structure Env where
  fails : Op → Bool
  salt : String
  now : Nat
  oid : Nat

/-- The fields of `req.body` the handlers read, for a body whose fields are
strings; `none` is a missing field. A body with array fields is a `JsonBody`,
handled by `registerJson` and `loginJson`, of which `register` and `login` are
the restriction to string fields (`registerJson_ofRequest`,
`loginJson_ofRequest`). -/
structure ReqBody where
  email : Option String
  firstName : Option String
  lastName : Option String
  password : Option String
  name : Option String

/-- The fields of `req.headers` the handlers read. -/
structure ReqHeaders where
  email : Option String

/-- An incoming request. -/
structure Request where
  body : ReqBody
  headers : ReqHeaders

/-- The bodies the handlers send. -/
inductive ResBody where
  /-- The object `{ error }`. -/
  | error (error : String)
  /-- The object `{ authtoken, firstName, email }` of `/register`. -/
  | registered (authtoken firstName email : String)
  /-- The object `{ authtoken, userName, userEmail }` of `/login`. -/
  | loggedIn (authtoken userName userEmail : String)
  /-- The object `{ authtoken }` of `/update`. -/
  | updated (authtoken : String)
  /-- A bare string, as sent by the catch block of `/update`. -/
  | text (message : String)
  deriving DecidableEq, Repr

/-- An HTTP response: status code and body. -/
structure Response where
  status : Nat
  body : ResBody
  deriving DecidableEq, Repr

/-- The result of handling one request: the response, the collection afterwards
and the collaborator calls made, in order (a call that threw is the last). -/
structure Outcome where
  res : Response
  db : Store
  ops : List Op
  deriving DecidableEq, Repr

/-! ## express-validator -/

/-- The validators run on the field converted to a string; a missing field
converts to the empty string. -/
def toStr (v : Option String) : String :=
  v.getD ""

/-- The check `.notEmpty()`. -/
def notEmpty (v : Option String) : Bool :=
  toStr v != ""

/-- The variation selectors U+FE0E and U+FE0F, which the validator's `isLength`
leaves out of the count. -/
def isPresentationSelector (c : Char) : Bool :=
  c.toNat == 0xFE0E || c.toNat == 0xFE0F

/-- The length the validator's `isLength` measures:
`str.length - presentationSequences.length - surrogatePairs.length`, that is,
the number of characters (a surrogate pair counts once) less the number of
variation selectors among them. -/
def validatorLength (s : String) : Nat :=
  s.length - (s.data.filter isPresentationSelector).length

/-- The check `.isLength({ min, max })`: the validator's length of the field
lies between `min` and `max`. -/
def isLength (min max : Nat) (v : Option String) : Bool :=
  decide (min ≤ validatorLength (toStr v)) && decide (validatorLength (toStr v) ≤ max)

/-- The validation chains of `POST /register`; `true` when
`validationResult(req).isEmpty()`. -/
def registerValidation (ctx : Ctx) (req : Request) : Bool :=
  (notEmpty req.body.email && ctx.isEmail (toStr req.body.email))
    && notEmpty req.body.firstName
    && notEmpty req.body.lastName
    && (notEmpty req.body.password && isLength 6 32 req.body.password)

/-- The validation chains of `POST /login`. -/
def loginValidation (ctx : Ctx) (req : Request) : Bool :=
  (notEmpty req.body.email && ctx.isEmail (toStr req.body.email))
    && (notEmpty req.body.password && isLength 6 32 req.body.password)

/-- The validation chain of `PUT /update`. -/
def updateValidation (req : Request) : Bool :=
  notEmpty req.body.name

/-! ## The collection methods -/

/-- The call `collection.findOne({ email })`: the first document whose `email`
equals the filter value exactly. -/
def findOne (db : Store) (email : String) : Option User :=
  db.find? (fun u => u.email == email)

/-- The call `collection.insertOne(doc)`: the document is appended. -/
def insertOne (db : Store) (doc : User) : Store :=
  db ++ [doc]

/-- The effect of `{ $set: doc }` on a stored document `u`: every field present
in `doc` is assigned. `_id` is immutable, so the result keeps `u._id`. -/
def applySet (u doc : User) : User :=
  { _id := u._id
    email := doc.email
    firstName := doc.firstName
    lastName := doc.lastName
    password := doc.password
    createdAt := doc.createdAt
    updatedAt := match doc.updatedAt with
      | some t => some t
      | none => u.updatedAt }

/-- The call `collection.findOneAndUpdate({ email }, { $set: doc },
{ returnDocument: "after" })`. `none` when the server rejects the update because
it would change `_id`; otherwise the collection afterwards and the updated
document, or `null` (`none`) when no document matches. -/
def findOneAndUpdate : Store → String → User → Option (Store × Option User)
  | [], _, _ => some ([], none)
  | u :: rest, email, doc =>
    if u.email == email then
      if doc._id = u._id then some (applySet u doc :: rest, some (applySet u doc))
      else none
    else
      match findOneAndUpdate rest email doc with
      | some (rest', r) => some (u :: rest', r)
      | none => none

/-! ## The handlers -/

/-- The catch block of `/register` and `/login`. -/
def internalError (db : Store) (ops : List Op) : Outcome :=
  ⟨⟨500, .error "Internal server error"⟩, db, ops⟩

/-- The catch block of `/update`, which sends a bare string. -/
def internalErrorText (db : Store) (ops : List Op) : Outcome :=
  ⟨⟨500, .text "Internal server error"⟩, db, ops⟩

/-- The handler of `POST /register`. -/
def register (ctx : Ctx) (env : Env) (req : Request) (db : Store) : Outcome :=
  if !registerValidation ctx req then
    ⟨⟨400, .error "Invalid field values"⟩, db, []⟩
  else if env.fails .connectToDatabase then
    internalError db [.connectToDatabase]
  else if env.fails .findOne then
    internalError db [.connectToDatabase, .findOne]
  else
    match findOne db (toStr req.body.email) with
    | some _ =>
      ⟨⟨200, .error "User email already exists, please login instead."⟩, db,
        [.connectToDatabase, .findOne]⟩
    | none =>
      if env.fails .genSalt then
        internalError db [.connectToDatabase, .findOne, .genSalt]
      else if env.fails .hash then
        internalError db [.connectToDatabase, .findOne, .genSalt, .hash]
      else
        let salt := env.salt
        let hash := ctx.hash (toStr req.body.password) salt
        let email := toStr req.body.email
        let firstName := toStr req.body.firstName
        if env.fails .insertOne then
          internalError db [.connectToDatabase, .findOne, .genSalt, .hash, .insertOne]
        else
          let db' := insertOne db
            { _id := env.oid
              email := toStr req.body.email
              firstName := toStr req.body.firstName
              lastName := toStr req.body.lastName
              password := hash
              createdAt := env.now
              updatedAt := none }
          if env.fails .sign then
            internalError db'
              [.connectToDatabase, .findOne, .genSalt, .hash, .insertOne, .sign]
          else
            let authtoken := ctx.sign ⟨some env.oid⟩ ctx.JWT_SECRET
            ⟨⟨200, .registered authtoken firstName email⟩, db',
              [.connectToDatabase, .findOne, .genSalt, .hash, .insertOne, .sign]⟩

/-- The handler of `POST /login`. The payload is built from `user.insertedId`,
a key that a document returned by `findOne` does not have. -/
def login (ctx : Ctx) (env : Env) (req : Request) (db : Store) : Outcome :=
  if !loginValidation ctx req then
    ⟨⟨400, .error "Invalid credential"⟩, db, []⟩
  else if env.fails .connectToDatabase then
    internalError db [.connectToDatabase]
  else if env.fails .findOne then
    internalError db [.connectToDatabase, .findOne]
  else
    match findOne db (toStr req.body.email) with
    | none =>
      ⟨⟨404, .error "No existing user found. Please register instead."⟩, db,
        [.connectToDatabase, .findOne]⟩
    | some user =>
      if env.fails .compare then
        internalError db [.connectToDatabase, .findOne, .compare]
      else if !ctx.compare (toStr req.body.password) user.password then
        ⟨⟨404, .error "Incorrect password"⟩, db,
          [.connectToDatabase, .findOne, .compare]⟩
      else
        let userName := user.firstName
        let userEmail := user.email
        if env.fails .sign then
          internalError db [.connectToDatabase, .findOne, .compare, .sign]
        else
          let authtoken := ctx.sign ⟨none⟩ ctx.JWT_SECRET
          ⟨⟨200, .loggedIn authtoken userName userEmail⟩, db,
            [.connectToDatabase, .findOne, .compare, .sign]⟩

/-- The handler of `PUT /update`. -/
def update (ctx : Ctx) (env : Env) (req : Request) (db : Store) : Outcome :=
  if !updateValidation req then
    ⟨⟨400, .error "Invalid input"⟩, db, []⟩
  else
    match req.headers.email with
    | none => ⟨⟨400, .error "Email not in the request headers"⟩, db, []⟩
    | some email =>
      if email == "" then
        ⟨⟨400, .error "Email not in the request headers"⟩, db, []⟩
      else if env.fails .connectToDatabase then
        internalErrorText db [.connectToDatabase]
      else if env.fails .findOne then
        internalErrorText db [.connectToDatabase, .findOne]
      else
        match findOne db email with
        | none =>
          ⟨⟨404, .error "User not found"⟩, db, [.connectToDatabase, .findOne]⟩
        | some found =>
          let existingUser := { found with updatedAt := some env.now }
          if env.fails .findOneAndUpdate then
            internalErrorText db [.connectToDatabase, .findOne, .findOneAndUpdate]
          else
            match findOneAndUpdate db email existingUser with
            | none =>
              internalErrorText db [.connectToDatabase, .findOne, .findOneAndUpdate]
            | some (db', none) =>
              internalErrorText db' [.connectToDatabase, .findOne, .findOneAndUpdate]
            | some (db', some updatedUser) =>
              if env.fails .sign then
                internalErrorText db'
                  [.connectToDatabase, .findOne, .findOneAndUpdate, .sign]
              else
                let authtoken := ctx.sign ⟨some updatedUser._id⟩ ctx.JWT_SECRET
                ⟨⟨200, .updated authtoken⟩, db',
                  [.connectToDatabase, .findOne, .findOneAndUpdate, .sign]⟩

/-! ## Bodies with array fields

`req.body` is parsed JSON, so a field may also be an array. The validation
chains run on every element of an array, and the handlers pass the field on as
it is: to the lookup filter, to bcrypt, to the inserted document and to the
response. -/

/-- The value of a key of the parsed body: absent, a string, or an array of
strings. -/
inductive Value where
  | undefined
  | str (s : String)
  | arr (items : List String)
  deriving DecidableEq, Repr

/-- The fields of `req.body` that `/register` and `/login` read, as parsed. -/
structure JsonBody where
  email : Value
  firstName : Value
  lastName : Value
  password : Value

/-- A document of the `users` collection whose email and names are stored as
they were submitted. -/
structure Document where
  _id : Nat
  email : Value
  firstName : Value
  lastName : Value
  password : String
  createdAt : Nat
  updatedAt : Option Nat
  deriving DecidableEq, Repr

/-- The `users` collection with such documents. -/
abbrev Collection := List Document

/-- The bodies the handlers send, the echoed fields being values. -/
inductive JsonResBody where
  | error (error : String)
  | registered (authtoken : String) (firstName email : Value)
  | loggedIn (authtoken : String) (userName userEmail : Value)
  | updated (authtoken : String)
  | text (message : String)
  deriving DecidableEq, Repr

/-- An HTTP response with such a body. -/
structure JsonResponse where
  status : Nat
  body : JsonResBody
  deriving DecidableEq, Repr

/-- The result of handling one request with a parsed body. -/
structure JsonOutcome where
  res : JsonResponse
  db : Collection
  ops : List Op
  deriving DecidableEq, Repr

/-- The strings a validator is run on: every element of an array, otherwise the
field itself converted to a string (an absent field converts to the empty
string). -/
def Value.elements : Value → List String
  | .undefined => [""]
  | .str s => [s]
  | .arr items => items

/-- A chain step reports no error when the check holds of every element. -/
def everyElement (check : String → Bool) (v : Value) : Bool :=
  v.elements.all check

/-- The check `.notEmpty()` on a parsed field. -/
def notEmptyJson (v : Value) : Bool :=
  everyElement (fun s => s != "") v

/-- The check `.isLength({ min, max })` on a parsed field. -/
def isLengthJson (min max : Nat) (v : Value) : Bool :=
  everyElement (fun s => decide (min ≤ validatorLength s) && decide (validatorLength s ≤ max)) v

/-- The validation chains of `POST /register` on a parsed body. -/
def registerJsonValidation (ctx : Ctx) (body : JsonBody) : Bool :=
  (notEmptyJson body.email && everyElement ctx.isEmail body.email)
    && notEmptyJson body.firstName
    && notEmptyJson body.lastName
    && (notEmptyJson body.password && isLengthJson 6 32 body.password)

/-- The validation chains of `POST /login` on a parsed body. -/
def loginJsonValidation (ctx : Ctx) (body : JsonBody) : Bool :=
  (notEmptyJson body.email && everyElement ctx.isEmail body.email)
    && (notEmptyJson body.password && isLengthJson 6 32 body.password)

/-- Whether a stored value satisfies the equality filter `{ email: filter }`:
it equals the filter value, or it is an array that contains the filter
string. -/
def equalityMatch (stored filter : Value) : Bool :=
  stored == filter ||
    match stored, filter with
    | .arr items, .str s => items.contains s
    | _, _ => false

/-- The call `collection.findOne({ email })` with a parsed value as filter. -/
def findOneJson (db : Collection) (email : Value) : Option Document :=
  db.find? (fun d => equalityMatch d.email email)

/-- The catch block of `/register` and `/login`. -/
def internalErrorJson (db : Collection) (ops : List Op) : JsonOutcome :=
  ⟨⟨500, .error "Internal server error"⟩, db, ops⟩

/-- The handler of `POST /register` on a parsed body. `bcryptjs.hash` throws
when the password is not a string. -/
def registerJson (ctx : Ctx) (env : Env) (body : JsonBody) (db : Collection) : JsonOutcome :=
  if !registerJsonValidation ctx body then
    ⟨⟨400, .error "Invalid field values"⟩, db, []⟩
  else if env.fails .connectToDatabase then
    internalErrorJson db [.connectToDatabase]
  else if env.fails .findOne then
    internalErrorJson db [.connectToDatabase, .findOne]
  else
    match findOneJson db body.email with
    | some _ =>
      ⟨⟨200, .error "User email already exists, please login instead."⟩, db,
        [.connectToDatabase, .findOne]⟩
    | none =>
      if env.fails .genSalt then
        internalErrorJson db [.connectToDatabase, .findOne, .genSalt]
      else if env.fails .hash then
        internalErrorJson db [.connectToDatabase, .findOne, .genSalt, .hash]
      else
        match body.password with
        | .str password =>
          let salt := env.salt
          let hash := ctx.hash password salt
          let email := body.email
          let firstName := body.firstName
          if env.fails .insertOne then
            internalErrorJson db
              [.connectToDatabase, .findOne, .genSalt, .hash, .insertOne]
          else
            let db' := db ++
              [{ _id := env.oid
                 email := body.email
                 firstName := body.firstName
                 lastName := body.lastName
                 password := hash
                 createdAt := env.now
                 updatedAt := none }]
            if env.fails .sign then
              internalErrorJson db'
                [.connectToDatabase, .findOne, .genSalt, .hash, .insertOne, .sign]
            else
              let authtoken := ctx.sign ⟨some env.oid⟩ ctx.JWT_SECRET
              ⟨⟨200, .registered authtoken firstName email⟩, db',
                [.connectToDatabase, .findOne, .genSalt, .hash, .insertOne, .sign]⟩
        | _ =>
          internalErrorJson db [.connectToDatabase, .findOne, .genSalt, .hash]

/-- The handler of `POST /login` on a parsed body. `bcryptjs.compare` throws
when the password is not a string. -/
def loginJson (ctx : Ctx) (env : Env) (body : JsonBody) (db : Collection) : JsonOutcome :=
  if !loginJsonValidation ctx body then
    ⟨⟨400, .error "Invalid credential"⟩, db, []⟩
  else if env.fails .connectToDatabase then
    internalErrorJson db [.connectToDatabase]
  else if env.fails .findOne then
    internalErrorJson db [.connectToDatabase, .findOne]
  else
    match findOneJson db body.email with
    | none =>
      ⟨⟨404, .error "No existing user found. Please register instead."⟩, db,
        [.connectToDatabase, .findOne]⟩
    | some user =>
      if env.fails .compare then
        internalErrorJson db [.connectToDatabase, .findOne, .compare]
      else
        match body.password with
        | .str password =>
          if !ctx.compare password user.password then
            ⟨⟨404, .error "Incorrect password"⟩, db,
              [.connectToDatabase, .findOne, .compare]⟩
          else
            let userName := user.firstName
            let userEmail := user.email
            if env.fails .sign then
              internalErrorJson db [.connectToDatabase, .findOne, .compare, .sign]
            else
              let authtoken := ctx.sign ⟨none⟩ ctx.JWT_SECRET
              ⟨⟨200, .loggedIn authtoken userName userEmail⟩, db,
                [.connectToDatabase, .findOne, .compare, .sign]⟩
        | _ =>
          internalErrorJson db [.connectToDatabase, .findOne, .compare]

/-- A string field as a parsed value. -/
def Value.ofField : Option String → Value
  | none => .undefined
  | some s => .str s

/-- The body of a request with string fields, as a parsed body. -/
def JsonBody.ofRequest (req : Request) : JsonBody :=
  { email := .ofField req.body.email
    firstName := .ofField req.body.firstName
    lastName := .ofField req.body.lastName
    password := .ofField req.body.password }

/-- A document with string fields, as a document with values. -/
def Document.ofUser (u : User) : Document :=
  { _id := u._id
    email := .str u.email
    firstName := .str u.firstName
    lastName := .str u.lastName
    password := u.password
    createdAt := u.createdAt
    updatedAt := u.updatedAt }

/-- A response body with string fields, as a body with values. -/
def JsonResBody.ofResBody : ResBody → JsonResBody
  | .error e => .error e
  | .registered t firstName email => .registered t (.str firstName) (.str email)
  | .loggedIn t userName userEmail => .loggedIn t (.str userName) (.str userEmail)
  | .updated t => .updated t
  | .text m => .text m

/-- An outcome on string fields, as an outcome on values. -/
def JsonOutcome.ofOutcome (out : Outcome) : JsonOutcome :=
  { res := ⟨out.res.status, .ofResBody out.res.body⟩
    db := out.db.map Document.ofUser
    ops := out.ops }

/-! ## Sequential execution -/

/-- One request, addressed to one of the three routes. -/
inductive Call where
  | register (req : Request)
  | login (req : Request)
  | update (req : Request)

/-- Dispatch of a request to its handler. -/
def handle (ctx : Ctx) (env : Env) : Call → Store → Outcome
  | .register req, db => register ctx env req db
  | .login req, db => login ctx env req db
  | .update req, db => update ctx env req db

/-- Requests handled one at a time, each to completion before the next starts;
every request comes with its own environment. The result is the collection
after the last one. -/
def run (ctx : Ctx) : List (Env × Call) → Store → Store
  | [], db => db
  | (env, call) :: rest, db => run ctx rest (handle ctx env call db).db

/-- No two documents of the collection share an email. -/
def uniqueEmails (db : Store) : Prop :=
  (db.map (fun u => u.email)).Nodup

/-- The identifiers of the documents, in collection order. -/
def ids (db : Store) : List Nat :=
  db.map (fun u => u._id)

/-- Whether a request goes to `/register`. -/
def Call.isRegister : Call → Bool
  | .register _ => true
  | _ => false

/-! ## What bcrypt reads of a password -/

/-- The UTF-8 encoding of one character, as byte values. -/
def utf8EncodeChar (c : Char) : List Nat :=
  let v := c.toNat
  if v ≤ 0x7f then [v]
  else if v ≤ 0x7ff then [0xc0 + v / 64, 0x80 + v % 64]
  else if v ≤ 0xffff then [0xe0 + v / 4096, 0x80 + v / 64 % 64, 0x80 + v % 64]
  else [0xf0 + v / 262144, 0x80 + v / 4096 % 64, 0x80 + v / 64 % 64, 0x80 + v % 64]

/-- The UTF-8 encoding of a string: the bytes bcrypt hashes. -/
def utf8 (s : String) : List Nat :=
  (s.data.map utf8EncodeChar).flatten

/-- The part of a password that bcrypt's key schedule reads: the first 72
bytes of its encoding. -/
def bcryptKey (s : String) : List Nat :=
  (utf8 s).take 72

/-- The input limit of bcrypt ("the maximum input length is 72 bytes", with
UTF-8 characters taking up to 4 bytes each): two passwords of at least 72 bytes
whose first 72 bytes agree hash to the same value under every salt. -/
def TruncatesAt72 (ctx : Ctx) : Prop :=
  ∀ p q s : String, 72 ≤ (utf8 p).length → 72 ≤ (utf8 q).length →
    bcryptKey p = bcryptKey q → ctx.hash p s = ctx.hash q s

/-- How `bcryptjs.compare` decides: it hashes the candidate under the salt
carried by the stored hash and compares the two hashes. Stated for the hashes
made under salt `s`. -/
def CompareRehashes (ctx : Ctx) (s : String) : Prop :=
  ∀ p q : String, ctx.compare q (ctx.hash p s) = decide (ctx.hash q s = ctx.hash p s)

/-! ## Sample values -/

/-- A small instance of the collaborators: an email is anything with an `@`,
a hash is its four-character salt followed by the part of the password bcrypt
reads, a comparison rehashes under the salt found in the stored hash, and a
token renders the payload. -/
def sampleCtx : Ctx :=
  { isEmail := fun s => s.data.contains '@'
    hash := fun p s => s ++ String.mk ((bcryptKey p).map Char.ofNat)
    compare := fun q h =>
      decide (String.mk (h.data.take 4) ++ String.mk ((bcryptKey q).map Char.ofNat) = h)
    sign := fun payload _ =>
      match payload.id with
      | some n => String.mk (List.replicate n 'i')
      | none => "anonymous"
    JWT_SECRET := some "secret" }

/-- An environment in which no collaborator call throws. -/
def sampleEnv : Env :=
  { fails := fun _ => false, salt := "salt", now := 1000, oid := 7 }

/-- An environment in which `findOne` throws. -/
def findOneDown : Env :=
  { fails := fun op => decide (op = .findOne), salt := "salt", now := 1000, oid := 7 }

/-- An environment in which `jwt.sign` throws. -/
def signDown : Env :=
  { fails := fun op => decide (op = .sign), salt := "salt", now := 1000, oid := 7 }

/-- The registration request of the scenario in the specification. -/
def sampleRegister : Request :=
  { body := { email := some "a@x.com", firstName := some "A", lastName := some "B",
              password := some "secret1", name := none }
    headers := { email := none } }

/-- A login request with the password of `sampleRegister`. -/
def sampleLogin : Request :=
  { body := { email := some "a@x.com", firstName := none, lastName := none,
              password := some "secret1", name := none }
    headers := { email := none } }

/-- A login request with another password. -/
def wrongLogin : Request :=
  { body := { email := some "a@x.com", firstName := none, lastName := none,
              password := some "wrong12", name := none }
    headers := { email := none } }

/-- The document that `sampleRegister` creates under `sampleEnv`. -/
def sampleUser : User :=
  { _id := 7, email := "a@x.com", firstName := "A", lastName := "B",
    password := sampleCtx.hash "secret1" "salt", createdAt := 1000, updatedAt := none }

/-- An update request for the sample user. -/
def sampleUpdate : Request :=
  { body := { email := none, firstName := none, lastName := none,
              password := none, name := some "Ann" }
    headers := { email := some "a@x.com" } }

/-- An update request whose `email` header is present but empty. -/
def emptyHeaderUpdate : Request :=
  { body := { email := none, firstName := none, lastName := none,
              password := none, name := some "Ann" }
    headers := { email := some "" } }

/-- An update request for an email that nobody registered. -/
def strangerUpdate : Request :=
  { body := { email := none, firstName := none, lastName := none,
              password := none, name := some "Ann" }
    headers := { email := some "z@x.com" } }

/-- A password of 32 characters, each three bytes long in UTF-8. -/
def longPassword : String :=
  String.mk (List.replicate 32 (Char.ofNat 8364))

/-- Another password of 32 characters, which differs from `longPassword` in the
last character only, that is, beyond byte 72. -/
def otherLongPassword : String :=
  String.mk (List.replicate 31 (Char.ofNat 8364) ++ [Char.ofNat 97])

/-- A password of six characters, the last of which is the variation selector
U+FE0F: the validator measures five. -/
def selectorPassword : String :=
  String.mk ['a', 'b', 'c', 'd', 'e', Char.ofNat 0xFE0F]

/-- A password of 33 characters, the last of which is the variation selector
U+FE0F: the validator measures 32. -/
def overlongPassword : String :=
  String.mk (List.replicate 32 'p' ++ [Char.ofNat 0xFE0F])

/-- A parsed registration body with the given password. -/
def sampleBody (password : Value) : JsonBody :=
  { email := .str "a@x.com", firstName := .str "A", lastName := .str "B",
    password := password }

/-- The parsed body `{ email: [], password: [] }`. -/
def emptyArrays : JsonBody :=
  { email := .arr [], firstName := .undefined, lastName := .undefined,
    password := .arr [] }

/-- A parsed body without email and with a three-character password. -/
def badBody : JsonBody :=
  { email := .undefined, firstName := .undefined, lastName := .undefined,
    password := .str "abc" }

/-- The request of `sampleRegister` with the password replaced. -/
def withPassword (req : Request) (p : String) : Request :=
  { req with body := { req.body with password := some p } }

end Giftlink

/-! ## Lemmas on validation and lookup -/

namespace Giftlink

/-- The chains of `/register` accept a body whose four fields are present and
non-empty, with a well-formed email and a password that the validator measures
between 6 and 32. -/
theorem registerValidation_of_fields (ctx : Ctx) (req : Request)
    (email firstName lastName password : String)
    (hemail : req.body.email = some email) (hfirst : req.body.firstName = some firstName)
    (hlast : req.body.lastName = some lastName) (hpw : req.body.password = some password)
    (hne : email ≠ "") (hsyn : ctx.isEmail email = true)
    (hfn : firstName ≠ "") (hln : lastName ≠ "")
    (hmin : 6 ≤ validatorLength password) (hmax : validatorLength password ≤ 32) :
    registerValidation ctx req = true := by
  have hp : password ≠ "" := by
    rintro rfl
    simp [validatorLength] at hmin
  simp [registerValidation, notEmpty, isLength, toStr, hemail, hfirst, hlast, hpw, hne, hsyn,
    hfn, hln, hmin, hmax, hp]

/-- The chains of `/login` accept a well-formed email with a password that the
validator measures between 6 and 32. -/
theorem loginValidation_of_fields (ctx : Ctx) (req : Request) (email password : String)
    (hemail : req.body.email = some email) (hpw : req.body.password = some password)
    (hne : email ≠ "") (hsyn : ctx.isEmail email = true)
    (hmin : 6 ≤ validatorLength password) (hmax : validatorLength password ≤ 32) :
    loginValidation ctx req = true := by
  have hp : password ≠ "" := by
    rintro rfl
    simp [validatorLength] at hmin
  simp [loginValidation, notEmpty, isLength, toStr, hemail, hpw, hne, hsyn, hmin, hmax, hp]

/-- A lookup by an email that no document has finds nothing. -/
theorem findOne_eq_none (db : Store) (email : String) (h : ∀ u ∈ db, u.email ≠ email) :
    findOne db email = none := by
  simp only [findOne, List.find?_eq_none]
  intro u hu
  simpa using h u hu

/-- A lookup by the email of a stored document finds a document. -/
theorem findOne_isSome_of_mem (db : Store) (email : String) (u : User) (hu : u ∈ db)
    (he : u.email = email) : ∃ v, findOne db email = some v := by
  cases hf : findOne db email with
  | some v => exact ⟨v, rfl⟩
  | none =>
    simp only [findOne, List.find?_eq_none] at hf
    have := hf u hu
    simp [he] at this

/-! ## POST /register -/

/-- C1, as stated, fails on the way a length is counted: the password below has
six characters and every other condition of the claim holds, yet the validator
measures five, the answer is 400 and nothing is inserted. -/
theorem register_success_counterexample :
    (withPassword sampleRegister selectorPassword).body.email = some "a@x.com"
      ∧ sampleCtx.isEmail "a@x.com" = true
      ∧ (withPassword sampleRegister selectorPassword).body.firstName = some "A"
      ∧ (withPassword sampleRegister selectorPassword).body.lastName = some "B"
      ∧ (withPassword sampleRegister selectorPassword).body.password = some selectorPassword
      ∧ selectorPassword.length = 6
      ∧ (∀ op, sampleEnv.fails op = false)
      ∧ register sampleCtx sampleEnv (withPassword sampleRegister selectorPassword) [] =
          ⟨⟨400, .error "Invalid field values"⟩, [], []⟩ := by
  refine ⟨rfl, by decide, rfl, rfl, rfl, by decide, fun _ => rfl, by decide⟩

/-- C1, amended: a request with a well-formed non-empty email, non-empty first
and last name and a password that the validator measures between 6 and 32 (its
characters, the variation selectors U+FE0E and U+FE0F left out), with a fresh
email and no collaborator failing, is answered 200 with
`{authtoken, firstName, email}` echoing the submitted values, the token signing
the identifier given to the new document, and the collection gains exactly that
one document, whose password is the salted hash. -/
theorem register_success (ctx : Ctx) (env : Env) (req : Request) (db : Store)
    (email firstName lastName password : String)
    (hemail : req.body.email = some email) (hfirst : req.body.firstName = some firstName)
    (hlast : req.body.lastName = some lastName) (hpw : req.body.password = some password)
    (hne : email ≠ "") (hsyn : ctx.isEmail email = true)
    (hfn : firstName ≠ "") (hln : lastName ≠ "")
    (hmin : 6 ≤ validatorLength password) (hmax : validatorLength password ≤ 32)
    (hfresh : ∀ u ∈ db, u.email ≠ email)
    (hok : ∀ op, env.fails op = false) :
    (register ctx env req db).res =
        ⟨200, .registered (ctx.sign ⟨some env.oid⟩ ctx.JWT_SECRET) firstName email⟩
      ∧ (register ctx env req db).db =
        db ++ [{ _id := env.oid, email := email, firstName := firstName,
                 lastName := lastName, password := ctx.hash password env.salt,
                 createdAt := env.now, updatedAt := none }] := by
  have hv := registerValidation_of_fields ctx req email firstName lastName password
    hemail hfirst hlast hpw hne hsyn hfn hln hmin hmax
  have hf := findOne_eq_none db email hfresh
  simp [register, hv, hok, hemail, hfirst, hlast, hpw, toStr, hf, insertOne]

/-- Witness of the amended C1 on the scenario of the specification. -/
theorem register_success_witness :
    (register sampleCtx sampleEnv sampleRegister []).res =
        ⟨200, .registered (sampleCtx.sign ⟨some 7⟩ (some "secret")) "A" "a@x.com"⟩
      ∧ (register sampleCtx sampleEnv sampleRegister []).db = [] ++ [sampleUser] :=
  register_success sampleCtx sampleEnv sampleRegister [] "a@x.com" "A" "B" "secret1"
    rfl rfl rfl rfl (by decide) (by decide) (by decide) (by decide) (by decide) (by decide)
    (by simp) (fun _ => rfl)

/-- C2, as stated, fails when the lookup throws: the request is valid and the
collection holds a document with the submitted email, yet the answer is 500. -/
theorem register_duplicate_counterexample :
    registerValidation sampleCtx sampleRegister = true
      ∧ sampleUser ∈ [sampleUser]
      ∧ sampleUser.email = toStr sampleRegister.body.email
      ∧ (register sampleCtx findOneDown sampleRegister [sampleUser]).res =
          ⟨500, .error "Internal server error"⟩ := by
  decide

/-- C2, amended: a valid request whose email is already in the collection, with
the connection and the lookup succeeding, is answered 200 with the error body
(no token), and the collection is left as it was. -/
theorem register_duplicate (ctx : Ctx) (env : Env) (req : Request) (db : Store) (u : User)
    (hv : registerValidation ctx req = true)
    (hu : u ∈ db) (he : u.email = toStr req.body.email)
    (hconn : env.fails .connectToDatabase = false) (hfind : env.fails .findOne = false) :
    register ctx env req db =
      ⟨⟨200, .error "User email already exists, please login instead."⟩, db,
        [.connectToDatabase, .findOne]⟩ := by
  obtain ⟨v, hvf⟩ := findOne_isSome_of_mem db (toStr req.body.email) u hu he
  simp [register, hv, hconn, hfind, hvf]

/-- Witness of the amended C2: registering the sample user twice. -/
theorem register_duplicate_witness :
    register sampleCtx sampleEnv sampleRegister [sampleUser] =
      ⟨⟨200, .error "User email already exists, please login instead."⟩, [sampleUser],
        [.connectToDatabase, .findOne]⟩ :=
  register_duplicate sampleCtx sampleEnv sampleRegister [sampleUser] sampleUser
    (by decide) (by decide) (by decide) rfl rfl

/-! ## Validation failures -/

/-- On a string field, a chain step checks the field converted to a string. -/
theorem everyElement_ofField (check : String → Bool) (v : Option String) :
    everyElement check (.ofField v) = check (toStr v) := by
  cases v <;> simp [everyElement, Value.elements, Value.ofField, toStr]

/-- On string fields the chains of `/register` are those of `registerValidation`. -/
theorem registerJsonValidation_ofRequest (ctx : Ctx) (req : Request) :
    registerJsonValidation ctx (.ofRequest req) = registerValidation ctx req := by
  simp [registerJsonValidation, registerValidation, JsonBody.ofRequest, notEmptyJson,
    isLengthJson, notEmpty, isLength, everyElement_ofField]

/-- On string fields the chains of `/login` are those of `loginValidation`. -/
theorem loginJsonValidation_ofRequest (ctx : Ctx) (req : Request) :
    loginJsonValidation ctx (.ofRequest req) = loginValidation ctx req := by
  simp [loginJsonValidation, loginValidation, JsonBody.ofRequest, notEmptyJson,
    isLengthJson, notEmpty, isLength, everyElement_ofField]

/-- Two strings match as values exactly when they are equal. -/
theorem equalityMatch_str (a b : String) :
    equalityMatch (.str a) (.str b) = (a == b) := by
  by_cases h : a = b <;> simp [equalityMatch, h]

/-- On documents with string emails, a lookup by a string is `findOne`. -/
theorem findOneJson_map (db : Store) (email : String) :
    findOneJson (db.map Document.ofUser) (.str email)
      = (findOne db email).map Document.ofUser := by
  have hfun : ((fun d : Document => equalityMatch d.email (.str email)) ∘ Document.ofUser)
      = fun u : User => u.email == email := by
    funext u
    simp [Document.ofUser, equalityMatch_str]
  simp only [findOneJson, findOne, List.find?_map, hfun]

/-- The handler `register` is `registerJson` on bodies and documents with string
fields. -/
theorem registerJson_ofRequest (ctx : Ctx) (env : Env) (req : Request) (db : Store) :
    registerJson ctx env (.ofRequest req) (db.map Document.ofUser)
      = .ofOutcome (register ctx env req db) := by
  have hvj := registerJsonValidation_ofRequest ctx req
  cases hv : registerValidation ctx req with
  | false =>
    rw [hv] at hvj
    simp only [registerJson, register, hvj, hv]
    simp [JsonOutcome.ofOutcome, JsonResBody.ofResBody]
  | true =>
    rw [hv] at hvj
    have hv' := hv
    simp only [registerValidation, notEmpty, Bool.and_eq_true] at hv'
    obtain ⟨⟨⟨⟨he, -⟩, hf⟩, hl⟩, hp, -⟩ := hv'
    cases hemail : req.body.email with
    | none => simp [hemail, toStr] at he
    | some email =>
      cases hpw : req.body.password with
      | none => simp [hpw, toStr] at hp
      | some password =>
        cases hfirst : req.body.firstName with
        | none => simp [hfirst, toStr] at hf
        | some firstName =>
          cases hlast : req.body.lastName with
          | none => simp [hlast, toStr] at hl
          | some lastName =>
            have hlook := findOneJson_map db email
            have hbe : (JsonBody.ofRequest req).email = .str email := by
              simp [JsonBody.ofRequest, Value.ofField, hemail]
            have hbp : (JsonBody.ofRequest req).password = .str password := by
              simp [JsonBody.ofRequest, Value.ofField, hpw]
            have hbf : (JsonBody.ofRequest req).firstName = .str firstName := by
              simp [JsonBody.ofRequest, Value.ofField, hfirst]
            have hbl : (JsonBody.ofRequest req).lastName = .str lastName := by
              simp [JsonBody.ofRequest, Value.ofField, hlast]
            simp only [registerJson, register, hvj, hv, hbe, hbp, hbf, hbl, hlook, hemail,
              hpw, hfirst, hlast, toStr, Option.getD_some]
            cases hfo : findOne db email <;>
              cases h1 : env.fails .connectToDatabase <;> cases h2 : env.fails .findOne <;>
              cases h3 : env.fails .genSalt <;> cases h4 : env.fails .hash <;>
              cases h5 : env.fails .insertOne <;> cases h6 : env.fails .sign <;>
              simp [JsonOutcome.ofOutcome, JsonResBody.ofResBody, internalError,
                internalErrorJson, insertOne, Document.ofUser]

/-- The handler `login` is `loginJson` on bodies and documents with string
fields. -/
theorem loginJson_ofRequest (ctx : Ctx) (env : Env) (req : Request) (db : Store) :
    loginJson ctx env (.ofRequest req) (db.map Document.ofUser)
      = .ofOutcome (login ctx env req db) := by
  have hvj := loginJsonValidation_ofRequest ctx req
  cases hv : loginValidation ctx req with
  | false =>
    rw [hv] at hvj
    simp only [loginJson, login, hvj, hv]
    simp [JsonOutcome.ofOutcome, JsonResBody.ofResBody]
  | true =>
    rw [hv] at hvj
    have hv' := hv
    simp only [loginValidation, notEmpty, Bool.and_eq_true] at hv'
    obtain ⟨⟨he, -⟩, hp, -⟩ := hv'
    cases hemail : req.body.email with
    | none => simp [hemail, toStr] at he
    | some email =>
      cases hpw : req.body.password with
      | none => simp [hpw, toStr] at hp
      | some password =>
        have hlook := findOneJson_map db email
        have hbe : (JsonBody.ofRequest req).email = .str email := by
          simp [JsonBody.ofRequest, Value.ofField, hemail]
        have hbp : (JsonBody.ofRequest req).password = .str password := by
          simp [JsonBody.ofRequest, Value.ofField, hpw]
        simp only [loginJson, login, hvj, hv, hbe, hbp, hlook, hemail, hpw, toStr,
          Option.getD_some]
        cases hfo : findOne db email with
        | none =>
          cases h1 : env.fails .connectToDatabase <;> cases h2 : env.fails .findOne <;>
            simp [JsonOutcome.ofOutcome, JsonResBody.ofResBody, internalError,
              internalErrorJson]
        | some user =>
          cases hc : ctx.compare password user.password <;>
            cases h1 : env.fails .connectToDatabase <;> cases h2 : env.fails .findOne <;>
            cases h3 : env.fails .compare <;> cases h4 : env.fails .sign <;>
            simp [JsonOutcome.ofOutcome, JsonResBody.ofResBody, internalError,
              internalErrorJson, Document.ofUser, hc]

/-- C3, as stated, fails in two ways. A password of 33 characters ending in a
variation selector is measured as 32 by the validator, and the registration goes
through. And a body whose email and password are empty arrays passes every
chain, which runs per element: `/login` goes on to the connection and the
lookup, `/register` (with empty arrays for the names as well) as far as
bcrypt. -/
theorem validation_failure_counterexample :
    (overlongPassword.length = 33
      ∧ (registerJson sampleCtx sampleEnv (sampleBody (.str overlongPassword)) []).res.status
          = 200
      ∧ (registerJson sampleCtx sampleEnv (sampleBody (.str overlongPassword)) []).ops =
          [.connectToDatabase, .findOne, .genSalt, .hash, .insertOne, .sign]
      ∧ (registerJson sampleCtx sampleEnv (sampleBody (.str overlongPassword)) []).db ≠ [])
    ∧ loginJson sampleCtx sampleEnv emptyArrays [Document.ofUser sampleUser] =
        ⟨⟨404, .error "No existing user found. Please register instead."⟩,
          [Document.ofUser sampleUser], [.connectToDatabase, .findOne]⟩
    ∧ registerJson sampleCtx sampleEnv
        { email := .arr [], firstName := .arr [], lastName := .arr [], password := .arr [] }
        [Document.ofUser sampleUser] =
        ⟨⟨500, .error "Internal server error"⟩, [Document.ofUser sampleUser],
          [.connectToDatabase, .findOne, .genSalt, .hash]⟩ := by
  decide

/-- C3, amended: a request to `/register` or `/login` whose password is missing
or is a string that the validator measures (its characters, the variation
selectors U+FE0E and U+FE0F left out) as shorter than 6 or longer than 32, or
whose email is missing, the empty string or a string that is not a well-formed
email (for `/register` also: whose first or last name is missing or the empty
string) is answered 400 with the route's one generic message, no collaborator
is called, and the collection is left as it was. -/
theorem validation_failure (ctx : Ctx) (env : Env) (body : JsonBody) (db : Collection) :
    ((body.password = .undefined
        ∨ (∃ p, body.password = .str p ∧ (validatorLength p < 6 ∨ 32 < validatorLength p))
        ∨ body.email = .undefined ∨ body.email = .str ""
        ∨ (∃ e, body.email = .str e ∧ ctx.isEmail e = false)
        ∨ body.firstName = .undefined ∨ body.firstName = .str ""
        ∨ body.lastName = .undefined ∨ body.lastName = .str "") →
      registerJson ctx env body db = ⟨⟨400, .error "Invalid field values"⟩, db, []⟩)
    ∧ ((body.password = .undefined
        ∨ (∃ p, body.password = .str p ∧ (validatorLength p < 6 ∨ 32 < validatorLength p))
        ∨ body.email = .undefined ∨ body.email = .str ""
        ∨ (∃ e, body.email = .str e ∧ ctx.isEmail e = false)) →
      loginJson ctx env body db = ⟨⟨400, .error "Invalid credential"⟩, db, []⟩) := by
  constructor
  · intro h
    have hv : registerJsonValidation ctx body = false := by
      simp only [registerJsonValidation, Bool.and_eq_false_iff]
      rcases h with h | ⟨p, h, hp⟩ | h | h | ⟨e, h, he⟩ | h | h | h | h
      · right; left; simp [h, notEmptyJson, everyElement, Value.elements]
      · right; right
        rcases hp with hp | hp
        · simp [h, isLengthJson, everyElement, Value.elements]; omega
        · simp [h, isLengthJson, everyElement, Value.elements]; omega
      · left; left; left; left; simp [h, notEmptyJson, everyElement, Value.elements]
      · left; left; left; left; simp [h, notEmptyJson, everyElement, Value.elements]
      · left; left; left; right; simp [h, everyElement, Value.elements, he]
      · left; left; right; simp [h, notEmptyJson, everyElement, Value.elements]
      · left; left; right; simp [h, notEmptyJson, everyElement, Value.elements]
      · left; right; simp [h, notEmptyJson, everyElement, Value.elements]
      · left; right; simp [h, notEmptyJson, everyElement, Value.elements]
    simp [registerJson, hv]
  · intro h
    have hv : loginJsonValidation ctx body = false := by
      simp only [loginJsonValidation, Bool.and_eq_false_iff]
      rcases h with h | ⟨p, h, hp⟩ | h | h | ⟨e, h, he⟩
      · right; left; simp [h, notEmptyJson, everyElement, Value.elements]
      · right; right
        rcases hp with hp | hp
        · simp [h, isLengthJson, everyElement, Value.elements]; omega
        · simp [h, isLengthJson, everyElement, Value.elements]; omega
      · left; left; simp [h, notEmptyJson, everyElement, Value.elements]
      · left; left; simp [h, notEmptyJson, everyElement, Value.elements]
      · left; right; simp [h, everyElement, Value.elements, he]
    simp [loginJson, hv]

/-- Witness of the amended C3: a body without email and with a three-character
password, sent to `/register` and to `/login`. -/
theorem validation_failure_witness :
    registerJson sampleCtx sampleEnv badBody [Document.ofUser sampleUser] =
        ⟨⟨400, .error "Invalid field values"⟩, [Document.ofUser sampleUser], []⟩
      ∧ loginJson sampleCtx sampleEnv badBody [Document.ofUser sampleUser] =
        ⟨⟨400, .error "Invalid credential"⟩, [Document.ofUser sampleUser], []⟩ :=
  ⟨(validation_failure sampleCtx sampleEnv badBody [Document.ofUser sampleUser]).1
      (Or.inr (Or.inl ⟨"abc", rfl, Or.inl (by decide)⟩)),
   (validation_failure sampleCtx sampleEnv badBody [Document.ofUser sampleUser]).2
      (Or.inr (Or.inl ⟨"abc", rfl, Or.inl (by decide)⟩))⟩

/-! ## POST /login -/

/-- C4, as stated, fails when a collaborator throws: the request is valid, the
document exists and the comparison is true, yet with `jwt.sign` throwing the
answer is 500 and not 200. -/
theorem login_outcomes_counterexample :
    loginValidation sampleCtx sampleLogin = true
      ∧ findOne [sampleUser] (toStr sampleLogin.body.email) = some sampleUser
      ∧ sampleCtx.compare (toStr sampleLogin.body.password) sampleUser.password = true
      ∧ (login sampleCtx signDown sampleLogin [sampleUser]).res =
          ⟨500, .error "Internal server error"⟩ := by
  decide

/-- C4, amended: for a valid request, with the connection and the lookup
succeeding, (i) no document with the email gives 404 "No existing user found.
Please register instead."; (ii) a document whose comparison succeeds in running
and returns false gives 404 "Incorrect password"; (iii) a document whose
comparison returns true, with the signing succeeding, gives 200 with
`{authtoken, userName, userEmail}` taken from the stored document. The
collection is left as it was in all three cases. -/
theorem login_outcomes (ctx : Ctx) (env : Env) (req : Request) (db : Store)
    (hv : loginValidation ctx req = true)
    (hconn : env.fails .connectToDatabase = false) (hfind : env.fails .findOne = false) :
    ((∀ u ∈ db, u.email ≠ toStr req.body.email) →
        (login ctx env req db).res =
            ⟨404, .error "No existing user found. Please register instead."⟩
          ∧ (login ctx env req db).db = db)
    ∧ (∀ user, findOne db (toStr req.body.email) = some user →
        env.fails .compare = false →
        ctx.compare (toStr req.body.password) user.password = false →
        (login ctx env req db).res = ⟨404, .error "Incorrect password"⟩
          ∧ (login ctx env req db).db = db)
    ∧ (∀ user, findOne db (toStr req.body.email) = some user →
        env.fails .compare = false →
        ctx.compare (toStr req.body.password) user.password = true →
        env.fails .sign = false →
        (∃ authtoken, (login ctx env req db).res =
            ⟨200, .loggedIn authtoken user.firstName user.email⟩)
          ∧ (login ctx env req db).db = db) := by
  refine ⟨?_, ?_, ?_⟩
  · intro hnone
    have hf := findOne_eq_none db _ hnone
    simp [login, hv, hconn, hfind, hf]
  · intro user hf hc hcmp
    simp [login, hv, hconn, hfind, hf, hc, hcmp]
  · intro user hf hc hcmp hs
    simp [login, hv, hconn, hfind, hf, hc, hcmp, hs]

/-- Witness of the amended C4: the three outcomes on the sample collection. -/
theorem login_outcomes_witness :
    ((login sampleCtx sampleEnv sampleLogin []).res =
          ⟨404, .error "No existing user found. Please register instead."⟩
        ∧ (login sampleCtx sampleEnv sampleLogin []).db = [])
      ∧ ((login sampleCtx sampleEnv wrongLogin [sampleUser]).res =
          ⟨404, .error "Incorrect password"⟩
        ∧ (login sampleCtx sampleEnv wrongLogin [sampleUser]).db = [sampleUser])
      ∧ ((∃ authtoken, (login sampleCtx sampleEnv sampleLogin [sampleUser]).res =
          ⟨200, .loggedIn authtoken sampleUser.firstName sampleUser.email⟩)
        ∧ (login sampleCtx sampleEnv sampleLogin [sampleUser]).db = [sampleUser]) :=
  ⟨(login_outcomes sampleCtx sampleEnv sampleLogin [] (by decide) rfl rfl).1 (by simp),
   (login_outcomes sampleCtx sampleEnv wrongLogin [sampleUser] (by decide) rfl rfl).2.1
      sampleUser (by decide) rfl (by decide),
   (login_outcomes sampleCtx sampleEnv sampleLogin [sampleUser] (by decide) rfl rfl).2.2
      sampleUser (by decide) rfl (by decide) rfl⟩

/-- C5, what the code does: on a successful login the token signs a payload
without identifier, whatever the `_id` of the document that was looked up
(the handler reads `user.insertedId`, which a stored document does not have). -/
theorem login_token_payload (ctx : Ctx) (env : Env) (req : Request) (db : Store) (user : User)
    (hv : loginValidation ctx req = true)
    (hf : findOne db (toStr req.body.email) = some user)
    (hcmp : ctx.compare (toStr req.body.password) user.password = true)
    (hok : ∀ op, env.fails op = false) :
    (login ctx env req db).res =
      ⟨200, .loggedIn (ctx.sign ⟨none⟩ ctx.JWT_SECRET) user.firstName user.email⟩ := by
  simp [login, hv, hok, hf, hcmp]

/-- C5 at a concrete input: registration signs the identifier 7 of the new
document, the login that follows signs a payload without identifier, and the
two payloads differ. -/
theorem login_token_payload_witness :
    (register sampleCtx sampleEnv sampleRegister []).res =
        ⟨200, .registered (sampleCtx.sign ⟨some 7⟩ (some "secret")) "A" "a@x.com"⟩
      ∧ (login sampleCtx sampleEnv sampleLogin
          (register sampleCtx sampleEnv sampleRegister []).db).res =
        ⟨200, .loggedIn (sampleCtx.sign ⟨none⟩ sampleCtx.JWT_SECRET)
          sampleUser.firstName sampleUser.email⟩
      ∧ (⟨none⟩ : Payload) ≠ ⟨some sampleUser._id⟩ :=
  ⟨by decide,
   login_token_payload sampleCtx sampleEnv sampleLogin
      (register sampleCtx sampleEnv sampleRegister []).db sampleUser
      (by decide) (by decide) (by decide) (fun _ => rfl),
   by decide⟩

/-! ## PUT /update -/

/-- C7, as stated, fails when the lookup throws: the name is valid and the
header names an email that no document has, yet the answer is 500 and not
404. -/
theorem update_failures_counterexample :
    updateValidation strangerUpdate = true
      ∧ strangerUpdate.headers.email = some "z@x.com"
      ∧ (∀ u ∈ [sampleUser], u.email ≠ "z@x.com")
      ∧ (update sampleCtx findOneDown strangerUpdate [sampleUser]).res =
          ⟨500, .text "Internal server error"⟩ := by
  decide

/-- C7, amended: a request without `email` header, or with an empty one, is
answered 400 with an error body whether or not `name` is valid, and no
collaborator is called; a request with a valid `name` and a non-empty header
that matches no document, with the connection and the lookup succeeding, is
answered 404 "User not found". The collection is left as it was and no token is
issued in both cases. -/
theorem update_failures (ctx : Ctx) (env : Env) (req : Request) (db : Store) :
    ((req.headers.email = none ∨ req.headers.email = some "") →
        (∃ msg, (update ctx env req db).res = ⟨400, .error msg⟩)
          ∧ (update ctx env req db).db = db ∧ (update ctx env req db).ops = [])
    ∧ (∀ email, updateValidation req = true → req.headers.email = some email →
        email ≠ "" → (∀ u ∈ db, u.email ≠ email) →
        env.fails .connectToDatabase = false → env.fails .findOne = false →
        update ctx env req db =
          ⟨⟨404, .error "User not found"⟩, db, [.connectToDatabase, .findOne]⟩) := by
  constructor
  · intro h
    cases hv : updateValidation req <;> rcases h with h | h <;> simp [update, hv, h]
  · intro email hv hh hne hnone hconn hfind
    have hf := findOne_eq_none db email hnone
    simp [update, hv, hh, hne, hconn, hfind, hf]

/-- Witness of the amended C7: an empty header, and a header nobody
registered. -/
theorem update_failures_witness :
    ((∃ msg, (update sampleCtx sampleEnv emptyHeaderUpdate [sampleUser]).res =
          ⟨400, .error msg⟩)
        ∧ (update sampleCtx sampleEnv emptyHeaderUpdate [sampleUser]).db = [sampleUser]
        ∧ (update sampleCtx sampleEnv emptyHeaderUpdate [sampleUser]).ops = [])
      ∧ update sampleCtx sampleEnv strangerUpdate [sampleUser] =
          ⟨⟨404, .error "User not found"⟩, [sampleUser], [.connectToDatabase, .findOne]⟩ :=
  ⟨(update_failures sampleCtx sampleEnv emptyHeaderUpdate [sampleUser]).1 (Or.inr rfl),
   (update_failures sampleCtx sampleEnv strangerUpdate [sampleUser]).2 "z@x.com"
      (by decide) rfl (by decide) (by decide) rfl rfl⟩

/-- Writing a looked-up document back with a new `updatedAt` replaces that
document, the first one with the email, and nothing else. -/
theorem findOneAndUpdate_found (db : Store) (email : String) (r : User) (t : Nat)
    (hr : findOne db email = some r) :
    ∃ pre post, db = pre ++ r :: post ∧ (∀ u ∈ pre, u.email ≠ email)
      ∧ findOneAndUpdate db email { r with updatedAt := some t } =
          some (pre ++ { r with updatedAt := some t } :: post,
            some { r with updatedAt := some t }) := by
  induction db with
  | nil => simp [findOne] at hr
  | cons u rest ih =>
    by_cases hu : u.email = email
    · have hur : u = r := by
        simpa [findOne, List.find?, hu] using hr
      subst hur
      refine ⟨[], rest, rfl, by simp, ?_⟩
      simp [findOneAndUpdate, hu, applySet]
    · have hb : (u.email == email) = false := by simpa using hu
      have hrest : findOne rest email = some r := by
        simpa [findOne, List.find?_cons, hb] using hr
      obtain ⟨pre, post, hdb, hpre, hupd⟩ := ih hrest
      refine ⟨u :: pre, post, by simp [hdb], ?_, ?_⟩
      · intro v hv
        rcases List.mem_cons.mp hv with rfl | hv
        · exact hu
        · exact hpre v hv
      · simp [findOneAndUpdate, hu, hupd]

/-- C8: a request with a non-empty `name` and an `email` header that matches
the document `r`, no collaborator failing, writes `r` back with every field as
it was except `updatedAt`, which becomes the current time; `name` is applied to
no field; every other document is untouched; and the answer is 200 with exactly
`{authtoken}`, the token signing the identifier of `r`. -/
theorem update_success (ctx : Ctx) (env : Env) (req : Request) (db : Store)
    (name email : String) (r : User)
    (hname : req.body.name = some name) (hnonempty : name ≠ "")
    (hhdr : req.headers.email = some email) (hne : email ≠ "")
    (hr : findOne db email = some r)
    (hok : ∀ op, env.fails op = false) :
    ∃ pre post, db = pre ++ r :: post ∧ (∀ u ∈ pre, u.email ≠ email)
      ∧ (update ctx env req db).res =
          ⟨200, .updated (ctx.sign ⟨some r._id⟩ ctx.JWT_SECRET)⟩
      ∧ (update ctx env req db).db =
          pre ++ { _id := r._id, email := r.email, firstName := r.firstName,
                   lastName := r.lastName, password := r.password,
                   createdAt := r.createdAt, updatedAt := some env.now } :: post := by
  obtain ⟨pre, post, hdb, hpre, hupd⟩ := findOneAndUpdate_found db email r env.now hr
  refine ⟨pre, post, hdb, hpre, ?_⟩
  have hv : updateValidation req = true := by
    simp [updateValidation, notEmpty, toStr, hname, hnonempty]
  simp [update, hv, hhdr, hne, hok, hr, hupd]

/-- Witness of C8: updating the sample user, between two other documents of
which the second has the same email. -/
theorem update_success_witness :
    ∃ pre post,
      [{ sampleUser with _id := 1, email := "b@x.com" }, sampleUser,
        { sampleUser with _id := 9 }] = pre ++ sampleUser :: post
      ∧ (∀ u ∈ pre, u.email ≠ "a@x.com")
      ∧ (update sampleCtx sampleEnv sampleUpdate
          [{ sampleUser with _id := 1, email := "b@x.com" }, sampleUser,
            { sampleUser with _id := 9 }]).res =
          ⟨200, .updated (sampleCtx.sign ⟨some sampleUser._id⟩ sampleCtx.JWT_SECRET)⟩
      ∧ (update sampleCtx sampleEnv sampleUpdate
          [{ sampleUser with _id := 1, email := "b@x.com" }, sampleUser,
            { sampleUser with _id := 9 }]).db =
          pre ++ { _id := sampleUser._id, email := sampleUser.email,
                   firstName := sampleUser.firstName, lastName := sampleUser.lastName,
                   password := sampleUser.password, createdAt := sampleUser.createdAt,
                   updatedAt := some sampleEnv.now } :: post :=
  update_success sampleCtx sampleEnv sampleUpdate _ "Ann" "a@x.com" sampleUser
    rfl (by decide) rfl (by decide) (by decide) (fun _ => rfl)

/-! ## The catch blocks -/

/-- C9: in each of the three handlers, for a request that passes validation, a
collaborator call on the request's path that throws leads to status 500 with
the fixed message "Internal server error" and nothing else (no detail, no
token). The calls on the path are the connection and the lookup, then for
`/register` with a fresh email the salt, the hash, the insertion and the
signing; for `/login` with a document found the comparison and, when it returns
true, the signing; for `/update` with a document found the update and the
signing. The last call made is then one that threw, and no collaborator is
called twice: the failed call is not retried. -/
theorem collaborator_failure (ctx : Ctx) (env : Env) (req : Request) (db : Store) :
    (registerValidation ctx req = true →
        (env.fails .connectToDatabase = true ∨ env.fails .findOne = true
          ∨ (findOne db (toStr req.body.email) = none
              ∧ (env.fails .genSalt = true ∨ env.fails .hash = true
                  ∨ env.fails .insertOne = true ∨ env.fails .sign = true))) →
        (register ctx env req db).res = ⟨500, .error "Internal server error"⟩
          ∧ ∃ op, (register ctx env req db).ops.getLast? = some op ∧ env.fails op = true)
    ∧ (loginValidation ctx req = true →
        (env.fails .connectToDatabase = true ∨ env.fails .findOne = true
          ∨ ∃ user, findOne db (toStr req.body.email) = some user
              ∧ (env.fails .compare = true
                  ∨ (ctx.compare (toStr req.body.password) user.password = true
                      ∧ env.fails .sign = true))) →
        (login ctx env req db).res = ⟨500, .error "Internal server error"⟩
          ∧ ∃ op, (login ctx env req db).ops.getLast? = some op ∧ env.fails op = true)
    ∧ (updateValidation req = true →
        ∀ email, req.headers.email = some email → email ≠ "" →
        (env.fails .connectToDatabase = true ∨ env.fails .findOne = true
          ∨ ∃ r, findOne db email = some r
              ∧ (env.fails .findOneAndUpdate = true ∨ env.fails .sign = true)) →
        (update ctx env req db).res = ⟨500, .text "Internal server error"⟩
          ∧ ∃ op, (update ctx env req db).ops.getLast? = some op ∧ env.fails op = true)
    ∧ (register ctx env req db).ops.Nodup
    ∧ (login ctx env req db).ops.Nodup
    ∧ (update ctx env req db).ops.Nodup := by
  refine ⟨?_, ?_, ?_, ?_, ?_, ?_⟩
  · intro hv hcond
    cases hf : findOne db (toStr req.body.email) <;>
      cases h1 : env.fails .connectToDatabase <;> cases h2 : env.fails .findOne <;>
      cases h3 : env.fails .genSalt <;> cases h4 : env.fails .hash <;>
      cases h5 : env.fails .insertOne <;> cases h6 : env.fails .sign <;>
      simp [hf, h1, h2, h3, h4, h5, h6] at hcond <;>
      simp [register, internalError, hv, hf, h1, h2, h3, h4, h5, h6]
  · intro hv hcond
    cases hf : findOne db (toStr req.body.email) with
    | none =>
      cases h1 : env.fails .connectToDatabase <;> cases h2 : env.fails .findOne <;>
        simp [hf, h1, h2] at hcond <;>
        simp [login, internalError, hv, hf, h1, h2]
    | some user =>
      cases hc : ctx.compare (toStr req.body.password) user.password <;>
        cases h1 : env.fails .connectToDatabase <;> cases h2 : env.fails .findOne <;>
        cases h3 : env.fails .compare <;> cases h4 : env.fails .sign <;>
        simp [hf, hc, h1, h2, h3, h4] at hcond <;>
        simp [login, internalError, hv, hf, hc, h1, h2, h3, h4]
  · intro hv email hh hne hcond
    cases hf : findOne db email with
    | none =>
      cases h1 : env.fails .connectToDatabase <;> cases h2 : env.fails .findOne <;>
        simp [hf, h1, h2] at hcond <;>
        simp [update, internalErrorText, hv, hh, hne, hf, h1, h2]
    | some r =>
      obtain ⟨pre, post, -, -, hupd⟩ := findOneAndUpdate_found db email r env.now hf
      cases h1 : env.fails .connectToDatabase <;> cases h2 : env.fails .findOne <;>
        cases h3 : env.fails .findOneAndUpdate <;> cases h4 : env.fails .sign <;>
        simp [hf, h1, h2, h3, h4] at hcond <;>
        simp [update, internalErrorText, hv, hh, hne, hf, hupd, h1, h2, h3, h4]
  · cases hv : registerValidation ctx req <;>
      cases hf : findOne db (toStr req.body.email) <;>
      cases h1 : env.fails .connectToDatabase <;> cases h2 : env.fails .findOne <;>
      cases h3 : env.fails .genSalt <;> cases h4 : env.fails .hash <;>
      cases h5 : env.fails .insertOne <;> cases h6 : env.fails .sign <;>
      simp [register, internalError, hv, hf, h1, h2, h3, h4, h5, h6]
  · cases hv : loginValidation ctx req with
    | false => simp [login, hv]
    | true =>
      cases hf : findOne db (toStr req.body.email) with
      | none =>
        cases h1 : env.fails .connectToDatabase <;> cases h2 : env.fails .findOne <;>
          simp [login, internalError, hv, hf, h1, h2]
      | some user =>
        cases hc : ctx.compare (toStr req.body.password) user.password <;>
          cases h1 : env.fails .connectToDatabase <;> cases h2 : env.fails .findOne <;>
          cases h3 : env.fails .compare <;> cases h4 : env.fails .sign <;>
          simp [login, internalError, hv, hf, hc, h1, h2, h3, h4]
  · cases hv : updateValidation req with
    | false => simp [update, hv]
    | true =>
      cases hh : req.headers.email with
      | none => simp [update, hv, hh]
      | some email =>
        by_cases hne : email = ""
        · simp [update, hv, hh, hne]
        · cases hf : findOne db email with
          | none =>
            cases h1 : env.fails .connectToDatabase <;> cases h2 : env.fails .findOne <;>
              simp [update, internalErrorText, hv, hh, hne, hf, h1, h2]
          | some r =>
            obtain ⟨pre, post, -, -, hupd⟩ := findOneAndUpdate_found db email r env.now hf
            cases h1 : env.fails .connectToDatabase <;> cases h2 : env.fails .findOne <;>
              cases h3 : env.fails .findOneAndUpdate <;> cases h4 : env.fails .sign <;>
              simp [update, internalErrorText, hv, hh, hne, hf, hupd, h1, h2, h3, h4]

/-- Witness of C9: a lookup that throws in `/register` and `/update`, a signing
that throws in `/login`. -/
theorem collaborator_failure_witness :
    ((register sampleCtx findOneDown sampleRegister [sampleUser]).res =
          ⟨500, .error "Internal server error"⟩
        ∧ ∃ op, (register sampleCtx findOneDown sampleRegister [sampleUser]).ops.getLast?
            = some op ∧ findOneDown.fails op = true)
      ∧ ((login sampleCtx signDown sampleLogin [sampleUser]).res =
          ⟨500, .error "Internal server error"⟩
        ∧ ∃ op, (login sampleCtx signDown sampleLogin [sampleUser]).ops.getLast?
            = some op ∧ signDown.fails op = true)
      ∧ ((update sampleCtx findOneDown sampleUpdate [sampleUser]).res =
          ⟨500, .text "Internal server error"⟩
        ∧ ∃ op, (update sampleCtx findOneDown sampleUpdate [sampleUser]).ops.getLast?
            = some op ∧ findOneDown.fails op = true) :=
  ⟨(collaborator_failure sampleCtx findOneDown sampleRegister [sampleUser]).1
      (by decide) (Or.inr (Or.inl rfl)),
   (collaborator_failure sampleCtx signDown sampleLogin [sampleUser]).2.1
      (by decide) (Or.inr (Or.inr ⟨sampleUser, by decide, Or.inr ⟨by decide, rfl⟩⟩)),
   (collaborator_failure sampleCtx findOneDown sampleUpdate [sampleUser]).2.2.1
      (by decide) "a@x.com" rfl (by decide) (Or.inr (Or.inl rfl))⟩

/-! ## The collection under a sequence of requests -/

/-- What `/register` does to the collection: nothing, or it appends one document
whose email no document had. -/
theorem register_db (ctx : Ctx) (env : Env) (req : Request) (db : Store) :
    (register ctx env req db).db = db
      ∨ ∃ doc : User, (∀ u ∈ db, u.email ≠ doc.email)
          ∧ (register ctx env req db).db = db ++ [doc] := by
  cases hf : findOne db (toStr req.body.email) with
  | some u =>
    left
    cases hv : registerValidation ctx req <;>
      cases h1 : env.fails .connectToDatabase <;> cases h2 : env.fails .findOne <;>
      simp [register, internalError, hv, hf, h1, h2]
  | none =>
    have hfresh : ∀ u ∈ db, u.email ≠ toStr req.body.email := by
      intro u hu he
      obtain ⟨v, hv⟩ := findOne_isSome_of_mem db _ u hu he
      rw [hf] at hv
      cases hv
    cases hv : registerValidation ctx req <;>
      cases h1 : env.fails .connectToDatabase <;> cases h2 : env.fails .findOne <;>
      cases h3 : env.fails .genSalt <;> cases h4 : env.fails .hash <;>
      cases h5 : env.fails .insertOne <;> cases h6 : env.fails .sign <;>
      simp [register, internalError, insertOne, hv, hf, h1, h2, h3, h4, h5, h6] <;>
      exact hfresh

/-- The collection is the same after `/login` as before. -/
theorem login_db (ctx : Ctx) (env : Env) (req : Request) (db : Store) :
    (login ctx env req db).db = db := by
  cases hv : loginValidation ctx req with
  | false => simp [login, hv]
  | true =>
    cases hf : findOne db (toStr req.body.email) with
    | none =>
      cases h1 : env.fails .connectToDatabase <;> cases h2 : env.fails .findOne <;>
        simp [login, internalError, hv, hf, h1, h2]
    | some user =>
      cases hc : ctx.compare (toStr req.body.password) user.password <;>
        cases h1 : env.fails .connectToDatabase <;> cases h2 : env.fails .findOne <;>
        cases h3 : env.fails .compare <;> cases h4 : env.fails .sign <;>
        simp [login, internalError, hv, hf, hc, h1, h2, h3, h4]

/-- What `/update` does to the collection: nothing, or one document gets a new
`updatedAt` and keeps all its other fields. -/
theorem update_db (ctx : Ctx) (env : Env) (req : Request) (db : Store) :
    (update ctx env req db).db = db
      ∨ ∃ pre post, ∃ r : User, db = pre ++ r :: post
          ∧ (update ctx env req db).db =
              pre ++ { r with updatedAt := some env.now } :: post := by
  cases hv : updateValidation req with
  | false => simp [update, hv]
  | true =>
    cases hh : req.headers.email with
    | none => simp [update, hv, hh]
    | some email =>
      by_cases hne : email = ""
      · simp [update, hv, hh, hne]
      · cases hf : findOne db email with
        | none =>
          left
          cases h1 : env.fails .connectToDatabase <;> cases h2 : env.fails .findOne <;>
            simp [update, internalErrorText, hv, hh, hne, hf, h1, h2]
        | some r =>
          obtain ⟨pre, post, hdb, -, hupd⟩ := findOneAndUpdate_found db email r env.now hf
          cases h1 : env.fails .connectToDatabase <;> cases h2 : env.fails .findOne <;>
            cases h3 : env.fails .findOneAndUpdate <;>
            try (left; simp [update, internalErrorText, hv, hh, hne, hf, hupd, h1, h2, h3]; done)
          right
          refine ⟨pre, post, r, hdb, ?_⟩
          cases h4 : env.fails .sign <;>
            simp [update, internalErrorText, hv, hh, hne, hf, hupd, h1, h2, h3, h4]

/-- One request keeps the emails distinct, keeps every identifier in place, and
adds at most one document, and that only on `/register`. -/
theorem handle_invariant (ctx : Ctx) (env : Env) (call : Call) (db : Store)
    (h : uniqueEmails db) :
    uniqueEmails (handle ctx env call db).db
      ∧ ids db <+: ids (handle ctx env call db).db
      ∧ (handle ctx env call db).db.length ≤ db.length + (if call.isRegister then 1 else 0) := by
  cases call with
  | register req =>
    rcases register_db ctx env req db with hdb | ⟨doc, hfresh, hdb⟩
    · simp [handle, hdb, h, Call.isRegister]
    · refine ⟨?_, ?_, ?_⟩
      · simp only [handle, hdb, uniqueEmails, List.map_append, List.map_cons, List.map_nil]
        rw [List.nodup_append]
        refine ⟨h, by simp, ?_⟩
        intro e he he'
        simp only [List.mem_singleton] at he'
        obtain ⟨u, hu, rfl⟩ := List.mem_map.mp he
        exact hfresh u hu he'
      · simp [handle, hdb, ids]
      · simp [handle, hdb, Call.isRegister]
  | login req =>
    simp [handle, login_db, h, Call.isRegister]
  | update req =>
    rcases update_db ctx env req db with hdb | ⟨pre, post, r, hpre, hdb⟩
    · simp [handle, hdb, h, Call.isRegister]
    · have hemails : (handle ctx env (.update req) db).db.map (fun u => u.email)
          = db.map (fun u => u.email) := by
        simp only [handle]
        rw [hdb, hpre]
        simp
      have hids : ids (handle ctx env (.update req) db).db = ids db := by
        simp only [handle, ids]
        rw [hdb, hpre]
        simp
      refine ⟨?_, ?_, ?_⟩
      · simpa [uniqueEmails, hemails] using h
      · rw [hids]
      · have hlen := congrArg List.length hids
        simp only [ids, List.length_map] at hlen
        simp [hlen, Call.isRegister]

/-- C10: from a collection in which no two documents share an email, any finite
sequence of `/register`, `/login` and `/update` requests handled one after the
other leaves a collection in which no two documents share an email; the
identifiers present at the start are all still there, in place (nothing is
deleted, the identifiers only grow); and the number of documents grows by at
most the number of `/register` requests, so `/login` and `/update` add none. -/
theorem store_invariant (ctx : Ctx) (calls : List (Env × Call)) (db : Store)
    (h : uniqueEmails db) :
    uniqueEmails (run ctx calls db)
      ∧ ids db <+: ids (run ctx calls db)
      ∧ (run ctx calls db).length
          ≤ db.length + (calls.filter (fun c => c.2.isRegister)).length := by
  induction calls generalizing db with
  | nil => simp [run, h]
  | cons c rest ih =>
    obtain ⟨env, call⟩ := c
    obtain ⟨hu, hp, hl⟩ := handle_invariant ctx env call db h
    obtain ⟨hu', hp', hl'⟩ := ih (handle ctx env call db).db hu
    refine ⟨by simpa [run] using hu', ?_, ?_⟩
    · simpa [run] using hp.trans hp'
    · simp only [run, List.filter_cons]
      cases hreg : call.isRegister <;> simp [hreg] at hl ⊢ <;> omega

/-- Witness of C10: a duplicate registration, a login and an update on the
sample collection. -/
theorem store_invariant_witness :
    uniqueEmails (run sampleCtx
        [(sampleEnv, .register sampleRegister), (sampleEnv, .login sampleLogin),
          (sampleEnv, .update sampleUpdate)] [sampleUser])
      ∧ ids [sampleUser] <+: ids (run sampleCtx
        [(sampleEnv, .register sampleRegister), (sampleEnv, .login sampleLogin),
          (sampleEnv, .update sampleUpdate)] [sampleUser])
      ∧ (run sampleCtx
        [(sampleEnv, .register sampleRegister), (sampleEnv, .login sampleLogin),
          (sampleEnv, .update sampleUpdate)] [sampleUser]).length
          ≤ [sampleUser].length
            + ([(sampleEnv, Call.register sampleRegister), (sampleEnv, .login sampleLogin),
                (sampleEnv, .update sampleUpdate)].filter (fun c => c.2.isRegister)).length :=
  store_invariant sampleCtx _ [sampleUser] (by simp [uniqueEmails])

/-! ## Registration followed by login -/

/-- A lookup finds the document appended last when no earlier one has its
email. -/
theorem findOne_append_fresh (db : Store) (doc : User)
    (hfresh : ∀ u ∈ db, u.email ≠ doc.email) :
    findOne (db ++ [doc]) doc.email = some doc := by
  have hnone := findOne_eq_none db doc.email hfresh
  simp only [findOne] at hnone ⊢
  simp [List.find?_append, hnone]

/-- The answer to a login that follows a registration, in terms of the two
salted hashes: 200 when they are equal, 404 when they differ. -/
theorem login_after_register (ctx : Ctx) (env1 env2 : Env) (req1 req2 : Request)
    (db : Store) (email firstName lastName p q : String)
    (hemail : req1.body.email = some email) (hfirst : req1.body.firstName = some firstName)
    (hlast : req1.body.lastName = some lastName) (hpw : req1.body.password = some p)
    (hemail2 : req2.body.email = some email) (hpw2 : req2.body.password = some q)
    (hne : email ≠ "") (hsyn : ctx.isEmail email = true)
    (hfn : firstName ≠ "") (hln : lastName ≠ "")
    (hpmin : 6 ≤ validatorLength p) (hpmax : validatorLength p ≤ 32)
    (hqmin : 6 ≤ validatorLength q) (hqmax : validatorLength q ≤ 32)
    (hfresh : ∀ u ∈ db, u.email ≠ email)
    (hok1 : ∀ op, env1.fails op = false) (hok2 : ∀ op, env2.fails op = false)
    (hcmp : CompareRehashes ctx env1.salt) :
    (login ctx env2 req2 (register ctx env1 req1 db).db).res =
      if ctx.hash q env1.salt = ctx.hash p env1.salt then
        ⟨200, .loggedIn (ctx.sign ⟨none⟩ ctx.JWT_SECRET) firstName email⟩
      else ⟨404, .error "Incorrect password"⟩ := by
  have hv1 := registerValidation_of_fields ctx req1 email firstName lastName p
    hemail hfirst hlast hpw hne hsyn hfn hln hpmin hpmax
  have hv2 := loginValidation_of_fields ctx req2 email q hemail2 hpw2 hne hsyn hqmin hqmax
  have hf := findOne_eq_none db email hfresh
  have hdb : (register ctx env1 req1 db).db =
      db ++ [{ _id := env1.oid, email := email, firstName := firstName,
               lastName := lastName, password := ctx.hash p env1.salt,
               createdAt := env1.now, updatedAt := none }] := by
    simp [register, hv1, hok1, hemail, hfirst, hlast, hpw, toStr, hf, insertOne]
  have hfound := findOne_append_fresh db
    { _id := env1.oid, email := email, firstName := firstName,
      lastName := lastName, password := ctx.hash p env1.salt,
      createdAt := env1.now, updatedAt := none } hfresh
  have hc := hcmp p q
  by_cases hh : ctx.hash q env1.salt = ctx.hash p env1.salt
  · simp only [hh, decide_True] at hc
    simp [login, hv2, hok2, hdb, hemail2, hpw2, toStr, hfound, hc, hh]
  · simp only [hh, decide_False] at hc
    simp [login, hv2, hok2, hdb, hemail2, hpw2, toStr, hfound, hc, hh]

/-- The sample hash ignores what lies beyond byte 72 of a password. -/
theorem sampleCtx_truncates : TruncatesAt72 sampleCtx := by
  intro p q s _ _ h
  simp [sampleCtx, h]

/-- The sample comparison rehashes under the salt of the stored hash. -/
theorem sampleCtx_compareRehashes : CompareRehashes sampleCtx "salt" := by
  intro p q
  simp [sampleCtx, String.data_append]

/-- C6, as stated, fails in two ways. Two different passwords of 32 characters
whose UTF-8 encodings agree on the first 72 bytes: for every hashing primitive
that reads only those 72 bytes, as bcrypt does (the sample one is such a
primitive), a login with the second password after a registration with the
first is answered 200, not 404. And a password of six characters of which the
validator counts five: registration and login with that same password are both
answered 400. -/
theorem password_round_trip_counterexample :
    (otherLongPassword ≠ longPassword
      ∧ longPassword.length = 32 ∧ otherLongPassword.length = 32
      ∧ (TruncatesAt72 sampleCtx ∧ CompareRehashes sampleCtx sampleEnv.salt
          ∧ sampleCtx.isEmail "a@x.com" = true)
      ∧ ∀ ctx : Ctx, TruncatesAt72 ctx → CompareRehashes ctx sampleEnv.salt →
          ctx.isEmail "a@x.com" = true →
          (login ctx sampleEnv (withPassword sampleLogin otherLongPassword)
            (register ctx sampleEnv (withPassword sampleRegister longPassword) []).db).res.status
            = 200)
    ∧ (selectorPassword.length = 6
      ∧ register sampleCtx sampleEnv (withPassword sampleRegister selectorPassword) [] =
          ⟨⟨400, .error "Invalid field values"⟩, [], []⟩
      ∧ (login sampleCtx sampleEnv (withPassword sampleLogin selectorPassword)
          (register sampleCtx sampleEnv (withPassword sampleRegister selectorPassword) []).db).res
          = ⟨400, .error "Invalid credential"⟩) := by
  refine ⟨⟨by decide, by decide, by decide,
    ⟨sampleCtx_truncates, sampleCtx_compareRehashes, by decide⟩, ?_⟩,
    by decide, by decide, by decide⟩
  intro ctx htrunc hcmp hsyn
  have hhash : ctx.hash otherLongPassword sampleEnv.salt
      = ctx.hash longPassword sampleEnv.salt :=
    htrunc otherLongPassword longPassword sampleEnv.salt (by decide) (by decide) (by decide)
  have h := login_after_register ctx sampleEnv sampleEnv
    (withPassword sampleRegister longPassword) (withPassword sampleLogin otherLongPassword)
    [] "a@x.com" "A" "B" longPassword otherLongPassword rfl rfl rfl rfl rfl rfl
    (by decide) hsyn (by decide) (by decide) (by decide) (by decide) (by decide) (by decide)
    (by simp) (fun _ => rfl) (fun _ => rfl) hcmp
  rw [h, if_pos hhash]

/-- C6, amended: after a valid registration with a fresh email and password `p`,
a login with the same email and a password `q`, both passwords measured by the
validator between 6 and 32 (their characters, the variation selectors U+FE0E
and U+FE0F left out), no collaborator failing and the comparison rehashing
under the stored salt, is answered 200 with a token when `q = p`, and more
generally whenever the salted hash of `q` equals the stored one; it is answered
404 "Incorrect password" for every `q` whose salted hash differs from the
stored one. -/
theorem password_round_trip (ctx : Ctx) (env1 env2 : Env) (req1 req2 : Request)
    (db : Store) (email firstName lastName p q : String)
    (hemail : req1.body.email = some email) (hfirst : req1.body.firstName = some firstName)
    (hlast : req1.body.lastName = some lastName) (hpw : req1.body.password = some p)
    (hemail2 : req2.body.email = some email) (hpw2 : req2.body.password = some q)
    (hne : email ≠ "") (hsyn : ctx.isEmail email = true)
    (hfn : firstName ≠ "") (hln : lastName ≠ "")
    (hpmin : 6 ≤ validatorLength p) (hpmax : validatorLength p ≤ 32)
    (hqmin : 6 ≤ validatorLength q) (hqmax : validatorLength q ≤ 32)
    (hfresh : ∀ u ∈ db, u.email ≠ email)
    (hok1 : ∀ op, env1.fails op = false) (hok2 : ∀ op, env2.fails op = false)
    (hcmp : CompareRehashes ctx env1.salt) :
    (q = p →
        ∃ authtoken, (login ctx env2 req2 (register ctx env1 req1 db).db).res =
          ⟨200, .loggedIn authtoken firstName email⟩)
    ∧ (ctx.hash q env1.salt = ctx.hash p env1.salt →
        ∃ authtoken, (login ctx env2 req2 (register ctx env1 req1 db).db).res =
          ⟨200, .loggedIn authtoken firstName email⟩)
    ∧ (ctx.hash q env1.salt ≠ ctx.hash p env1.salt →
        (login ctx env2 req2 (register ctx env1 req1 db).db).res =
          ⟨404, .error "Incorrect password"⟩) := by
  have h := login_after_register ctx env1 env2 req1 req2 db email firstName lastName p q
    hemail hfirst hlast hpw hemail2 hpw2 hne hsyn hfn hln hpmin hpmax hqmin hqmax
    hfresh hok1 hok2 hcmp
  refine ⟨?_, ?_, ?_⟩
  · intro hqp
    exact ⟨_, by rw [h, if_pos (by rw [hqp])]⟩
  · intro hh
    exact ⟨_, by rw [h, if_pos hh]⟩
  · intro hh
    rw [h, if_neg hh]

/-- Witness of the amended C6: the scenario of the specification, a login with
"secret1" and one with "wrong12" after the registration with "secret1". -/
theorem password_round_trip_witness :
    (∃ authtoken, (login sampleCtx sampleEnv sampleLogin
        (register sampleCtx sampleEnv sampleRegister []).db).res =
        ⟨200, .loggedIn authtoken "A" "a@x.com"⟩)
      ∧ (login sampleCtx sampleEnv wrongLogin
        (register sampleCtx sampleEnv sampleRegister []).db).res =
        ⟨404, .error "Incorrect password"⟩ :=
  ⟨(password_round_trip sampleCtx sampleEnv sampleEnv sampleRegister sampleLogin []
      "a@x.com" "A" "B" "secret1" "secret1" rfl rfl rfl rfl rfl rfl
      (by decide) (by decide) (by decide) (by decide) (by decide) (by decide) (by decide)
      (by decide) (by simp) (fun _ => rfl) (fun _ => rfl) sampleCtx_compareRehashes).1 rfl,
   (password_round_trip sampleCtx sampleEnv sampleEnv sampleRegister wrongLogin []
      "a@x.com" "A" "B" "secret1" "wrong12" rfl rfl rfl rfl rfl rfl
      (by decide) (by decide) (by decide) (by decide) (by decide) (by decide) (by decide)
      (by decide) (by simp) (fun _ => rfl) (fun _ => rfl) sampleCtx_compareRehashes).2.2
      (by decide)⟩

end Giftlink
